import Mathlib

/-!
Shallow embedding of the socialX scheduled-post publication pipeline
(`api/cron/scheduler.js`): the three platform publishers (Twitter, Reddit,
LinkedIn), Twitter's chunked GIF upload, and the batch orchestrator
`processScheduledPosts`.

Network effects are modelled by oracle environments: each remote call is a
field of an environment structure, returning `Except String r` where
`Except.error` models a rejected fetch (network failure) and `r` carries the
HTTP response fields the code inspects.  JavaScript `throw` is modelled by
`Except.error`; each publisher's top-level `try/catch` is the final `match`
that converts `Except.error` into a `{success := false, error := some msg}`
result.  JavaScript strings that may be `undefined` or empty (both falsy)
are modelled as `String` with `""` for the falsy case, or `Option String`
where the code distinguishes absence (`?.` chains).
-/

namespace SocialX

/-- JS `a || b` for two possibly-falsy strings. -/
def jsOrS (a b : String) : String := if a ≠ "" then a else b

/-- JS `a || d` where `a` is an optional response field (absent or empty
string are both falsy) and `d` is a default value. -/
def jsOrD (a : Option String) (d : String) : String :=
  match a with
  | some s => if s ≠ "" then s else d
  | none => d

/-- JS `s.substring(0, n)`: the first `n` characters. -/
def jsSubstring (s : String) (n : Nat) : String := String.mk (s.data.take n)

/-- JS `s.trim()`: strip leading and trailing whitespace. -/
def jsTrim (s : String) : String :=
  String.mk (((s.data.dropWhile Char.isWhitespace).reverse.dropWhile
    Char.isWhitespace).reverse)

/-- JS truthiness of an optional string field (`undefined`, missing and `""`
are falsy). -/
def jsTruthy (a : Option String) : Bool :=
  match a with
  | some s => s ≠ ""
  | none => false

/-- One media item as stored on a post document: `cloudinaryUrl`/`url`
fields, `""` modelling an absent field. -/
structure MediaItem where
  cloudinaryUrl : String
  url : String
deriving DecidableEq

/-- The `media` value of a post: `null`/absent, an array of items, or the
legacy single-object format carrying a `hasMedia` flag. -/
inductive Media where
  | mnull : Media
  | arr (items : List MediaItem) : Media
  | obj (hasMedia : Bool) (item : MediaItem) : Media
deriving DecidableEq

/-- The guard `media && (media.hasMedia || (Array.isArray(media) &&
media.length > 0))` used by all three publishers. -/
def mediaPresent : Media → Bool
  | Media.mnull => false
  | Media.arr items => !items.isEmpty
  | Media.obj hasMedia _ => hasMedia

/-- `Array.isArray(media) ? media : [media]` (only evaluated when
`mediaPresent` holds, so the `mnull` case is unreachable). -/
def mediaArray : Media → List MediaItem
  | Media.mnull => []
  | Media.arr items => items
  | Media.obj _ item => [item]

/-- A connected-account record (`user.connectedAccounts[platform]`), with
the Twitter-only OAuth 1.0a pair; `""` models an absent/empty token. -/
structure Account where
  connected : Bool
  accessToken : String
  oauth1aAccessToken : String
  oauth1aAccessTokenSecret : String
deriving DecidableEq

/-- Common publisher outcome shape `{success, postId?, error?}` (also the
shape persisted per platform into `post.platformResults`). -/
structure PubResult where
  success : Bool
  postId : Option String
  error : Option String
deriving DecidableEq

/-! ## Twitter chunked GIF upload (`uploadGifChunked`) -/

/-- Standard base64 alphabet, as used by `Buffer.toString('base64')`. -/
def base64Chars : List Char :=
  "ABCDEFGHIJKLMNOPQRSTUVWXYZabcdefghijklmnopqrstuvwxyz0123456789+/".toList

def b64Char (n : Nat) : Char := base64Chars.getD n 'A'

/-- Base64 encoding of a byte list (values `< 256`), modelling
`Buffer.from(mediaBuffer).toString('base64')`. -/
def base64Encode : List Nat → String
  | a :: b :: c :: rest =>
      String.mk [b64Char (a / 4 % 64),
                 b64Char (a % 4 * 16 + b / 16 % 16),
                 b64Char (b % 16 * 4 + c / 64 % 4),
                 b64Char (c % 64)] ++ base64Encode rest
  | [a, b] =>
      String.mk [b64Char (a / 4 % 64), b64Char (a % 4 * 16 + b / 16 % 16),
                 b64Char (b % 16 * 4), '=']
  | [a] =>
      String.mk [b64Char (a / 4 % 64), b64Char (a % 4 * 16), '=', '=']
  | [] => ""

/-- One request sent to `upload.twitter.com/1.1/media/upload.json`. -/
inductive TwMediaCall where
  | init (total_bytes : Nat) (media_type media_category : String)
  | append (media_id : String) (segment_index : Nat) (media_data : String)
  | finalize (media_id : String)
  | status (media_id : String)
deriving DecidableEq

/-- A plain HTTP response: `ok` flag, status code, error body text. -/
structure HttpResp where
  ok : Bool
  status : Nat
  errText : String
deriving DecidableEq

/-- Response to the INIT phase (`media_id_string` field). -/
structure TwInitResp where
  ok : Bool
  status : Nat
  errText : String
  media_id_string : String
deriving DecidableEq

/-- Response to the FINALIZE phase (`processing_info` presence flag). -/
structure TwFinalizeResp where
  ok : Bool
  status : Nat
  errText : String
  processing_info : Bool
deriving DecidableEq

/-- Oracle environment for one chunked upload: the responses the remote end
gives to the INIT, APPEND and FINALIZE requests. -/
structure TwUploadEnv where
  initResp : TwInitResp
  appendResp : HttpResp
  finalizeResp : TwFinalizeResp

/-- `uploadGifChunked(mediaBuffer, mediaType, mediaCategory, ...)`: INIT,
then one APPEND at segment index 0 carrying the whole payload base64
encoded, then FINALIZE.  Returns the emitted request trace and the media id
(or the thrown error).  When FINALIZE reports `processing_info` the media id
is returned immediately (no STATUS polling). -/
def uploadGifChunked (env : TwUploadEnv) (mediaBuffer : List Nat)
    (mediaType mediaCategory : String) : List TwMediaCall × Except String String :=
  let totalBytes := mediaBuffer.length
  let initCall := TwMediaCall.init totalBytes mediaType mediaCategory
  if env.initResp.ok = false then
    ([initCall], Except.error
      ("Twitter INIT failed: " ++ toString env.initResp.status ++ " - " ++ env.initResp.errText))
  else
    let mediaId := env.initResp.media_id_string
    let appendCall := TwMediaCall.append mediaId 0 (base64Encode mediaBuffer)
    if env.appendResp.ok = false then
      ([initCall, appendCall], Except.error
        ("Twitter APPEND failed: " ++ toString env.appendResp.status ++ " - " ++ env.appendResp.errText))
    else
      let finalizeCall := TwMediaCall.finalize mediaId
      if env.finalizeResp.ok = false then
        ([initCall, appendCall, finalizeCall], Except.error
          ("Twitter FINALIZE failed: " ++ toString env.finalizeResp.status ++ " - " ++ env.finalizeResp.errText))
      else if env.finalizeResp.processing_info = true then
        -- gif requires async processing: return the media_id immediately
        ([initCall, appendCall, finalizeCall], Except.ok mediaId)
      else
        ([initCall, appendCall, finalizeCall], Except.ok mediaId)

/-- `true` iff the trace contains a STATUS request (the polling helper's
only request kind). -/
def hasStatusCall (trace : List TwMediaCall) : Bool :=
  trace.any fun c =>
    match c with
    | TwMediaCall.status _ => true
    | _ => false

/-- Response to a STATUS poll: `processing_info?.state`. -/
structure TwStatusResp where
  ok : Bool
  state : Option String
deriving DecidableEq

/-- The bounded-wait polling helper `waitForProcessing` (exists in the
source but is never invoked): polls STATUS until the state is `succeeded`
or `failed`, up to `fuel` attempts, `attempt` being the index of the next
poll. -/
def waitForProcessingAux (statusResps : Nat → TwStatusResp) (mediaId : String) :
    Nat → Nat → List TwMediaCall × Except String String
  | _, 0 => ([], Except.error "GIF processing timeout - exceeded maximum wait time")
  | attempt, fuel + 1 =>
      let resp := statusResps attempt
      let call := TwMediaCall.status mediaId
      if resp.ok = false then
        -- status check failed: continue to next attempt
        let (tr, r) := waitForProcessingAux statusResps mediaId (attempt + 1) fuel
        (call :: tr, r)
      else if resp.state = some "succeeded" then
        ([call], Except.ok mediaId)
      else if resp.state = some "failed" then
        ([call], Except.error "GIF processing failed on Twitter servers")
      else
        let (tr, r) := waitForProcessingAux statusResps mediaId (attempt + 1) fuel
        (call :: tr, r)

/-- `waitForProcessing(mediaId, ...)` with its `maxAttempts = 10`. -/
def waitForProcessing (statusResps : Nat → TwStatusResp) (mediaId : String) :
    List TwMediaCall × Except String String :=
  waitForProcessingAux statusResps mediaId 0 10

/-! ## Twitter publisher (`postToTwitter`) -/

/-- The tweet payload sent to `POST /2/tweets`: text plus the optional
`media.media_ids` list. -/
structure TweetData where
  text : String
  media : Option (List String)
deriving DecidableEq

/-- Response to the tweet creation call: `ok`, status, error body, and
`data.data?.id`. -/
structure TweetResp where
  ok : Bool
  status : Nat
  errBody : String
  id : Option String
deriving DecidableEq

/-- Oracle environment for the Twitter publisher: `uploadMedia` stands for
`uploadMediaToTwitterV1` (its internal failures are `Except.error`; a falsy
`media_id_string` is `""`), `postTweet` for the `POST /2/tweets` fetch. -/
structure TwEnv where
  uploadMedia : String → Except String String
  postTweet : TweetData → Except String TweetResp

/-- The media upload loop: for each item take `cloudinaryUrl || url`, skip
falsy urls (`if (imageUrl)`), upload, and push the returned id when truthy
(`if (mediaId)`).  Any upload error aborts the loop (the JS `for` is inside
one `try`). -/
def collectTwitterMediaIds (env : TwEnv) : List MediaItem → Except String (List String)
  | [] => Except.ok []
  | m :: rest =>
    let imageUrl := jsOrS m.cloudinaryUrl m.url
    if imageUrl = "" then collectTwitterMediaIds env rest
    else
      match env.uploadMedia imageUrl with
      | Except.error e => Except.error e
      | Except.ok mid =>
        match collectTwitterMediaIds env rest with
        | Except.error e => Except.error e
        | Except.ok ids => Except.ok (if mid = "" then ids else mid :: ids)

/-- The media-handling prologue of `postToTwitter`: returns the
`media.media_ids` value for the tweet payload, or `none` when media is
absent, the account lacks the OAuth 1.0a pair, the upload loop threw
(fallback to text-only), or no ids were collected. -/
def twitterMediaIds (env : TwEnv) (media : Media) (userAccount : Option Account) :
    Option (List String) :=
  if mediaPresent media then
    match userAccount with
    | some acc =>
      if acc.oauth1aAccessToken ≠ "" ∧ acc.oauth1aAccessTokenSecret ≠ "" then
        match collectTwitterMediaIds env (mediaArray media) with
        | Except.ok ids => if ids.length > 0 then some ids else none
        | Except.error _ => none
      else none
    | none => none
  else none

/-- The `try` body of `postToTwitter`: yields the payload actually sent to
the tweet endpoint (if the call was reached) and the success post id or the
thrown error. -/
def twBody (env : TwEnv) (content accessToken : String) (media : Media)
    (userAccount : Option Account) : Option TweetData × Except String String :=
  let mediaIds := twitterMediaIds env media userAccount
  if accessToken = "" then (none, Except.error "No access token provided")
  else
    let tweetData : TweetData := { text := content, media := mediaIds }
    match env.postTweet tweetData with
    | Except.error e => (some tweetData, Except.error e)
    | Except.ok resp =>
      if resp.ok = false then
        (some tweetData, Except.error
          ("Twitter API error: " ++ toString resp.status ++ " - " ++ resp.errBody))
      else (some tweetData, Except.ok (jsOrD resp.id "unknown"))

/-- `postToTwitter(content, accessToken, media, userAccount)`: the `try`
body wrapped by the top-level `catch` that converts any thrown error into
`{success:false, error}`.  Also returns the tweet payload that was sent,
for payload-shape properties. -/
def postToTwitter (env : TwEnv) (content accessToken : String) (media : Media)
    (userAccount : Option Account) : PubResult × Option TweetData :=
  match twBody env content accessToken media userAccount with
  | (sent, Except.ok pid) => ({ success := true, postId := some pid, error := none }, sent)
  | (sent, Except.error e) => ({ success := false, postId := none, error := some e }, sent)

/-! ## Reddit publisher (`postToReddit`) -/

/-- A submission payload: `kind` is `"self"`, `"image"` or `"gallery"`;
`items` is the gallery's `media_id` list. -/
structure RedditSubmission where
  kind : String
  sr : String
  title : String
  text : Option String
  url : Option String
  items : List String
deriving DecidableEq

/-- One outgoing Reddit-side request, for call-trace properties. -/
inductive RedditCall where
  | lease
  | fetchImage (url : String)
  | putUpload (action : String)
  | submit (endpoint : String) (s : RedditSubmission)
deriving DecidableEq

/-- Response to an upload-lease request (`leaseData.args` /
`leaseData.asset.asset_id`; `key` is the `key` field of the lease, absent
when the lease has none). -/
structure LeaseResp where
  ok : Bool
  status : Nat
  action : String
  asset_id : String
  key : Option String
deriving DecidableEq

/-- Response to a submit request: `result.json?.errors` (each entry already
serialized), `result.json?.data?.{id,name,url,user_submitted_page}`. -/
structure SubmitResp where
  ok : Bool
  status : Nat
  errors : List String
  id : Option String
  name : Option String
  url : Option String
  user_submitted_page : Option String
deriving DecidableEq

/-- Oracle environment for the Reddit publisher; `lease`/`put` are indexed
by the ordinal of the image upload within the call. -/
structure RedditEnv where
  lease : Nat → Except String LeaseResp
  fetchImage : String → Except String HttpResp
  put : Nat → Except String HttpResp
  submit : String → RedditSubmission → Except String SubmitResp

/-- `JSON.stringify(result.json.errors)`, items being already-serialized
opaque strings. -/
def stringifyErrors (es : List String) : String :=
  "[" ++ String.intercalate "," es ++ "]"

def s3Base : String := "https://reddit-uploaded-media.s3-accelerate.amazonaws.com/"

/-- `uploadMediaForGallery(imageUrl, accessToken)`: lease, fetch the source
image, PUT it to the lease's action URL, return the `asset_id`. -/
def uploadMediaForGallery (env : RedditEnv) (n : Nat) (imageUrl : String) :
    List RedditCall × Except String String :=
  match env.lease n with
  | Except.error e => ([RedditCall.lease], Except.error e)
  | Except.ok lr =>
    if lr.ok = false then
      ([RedditCall.lease], Except.error ("Failed to get gallery upload lease: " ++ toString lr.status))
    else
      match env.fetchImage imageUrl with
      | Except.error e => ([RedditCall.lease, RedditCall.fetchImage imageUrl], Except.error e)
      | Except.ok fr =>
        if fr.ok = false then
          ([RedditCall.lease, RedditCall.fetchImage imageUrl],
           Except.error ("Failed to fetch image: " ++ toString fr.status))
        else
          match env.put n with
          | Except.error e =>
            ([RedditCall.lease, RedditCall.fetchImage imageUrl,
              RedditCall.putUpload ("https:" ++ lr.action)], Except.error e)
          | Except.ok pr =>
            if pr.ok = false then
              ([RedditCall.lease, RedditCall.fetchImage imageUrl,
                RedditCall.putUpload ("https:" ++ lr.action)],
               Except.error ("Failed to upload gallery image: " ++ toString pr.status))
            else
              ([RedditCall.lease, RedditCall.fetchImage imageUrl,
                RedditCall.putUpload ("https:" ++ lr.action)], Except.ok lr.asset_id)

/-- The uploaded-asset pair returned by `uploadImageToRedditAsset`. -/
structure RedditAsset where
  assetId : String
  imageUrl : String
deriving DecidableEq

/-- `uploadImageToRedditAsset(imageUrl, accessToken)`: lease, fetch, PUT,
then return the asset id plus the derived S3 URL (a missing `key` lease
field interpolates as the string `"undefined"`, as in JS). -/
def uploadImageToRedditAsset (env : RedditEnv) (n : Nat) (imageUrl : String) :
    List RedditCall × Except String RedditAsset :=
  match env.lease n with
  | Except.error e => ([RedditCall.lease], Except.error e)
  | Except.ok lr =>
    if lr.ok = false then
      ([RedditCall.lease], Except.error ("Failed to get asset upload lease: " ++ toString lr.status))
    else
      match env.fetchImage imageUrl with
      | Except.error e => ([RedditCall.lease, RedditCall.fetchImage imageUrl], Except.error e)
      | Except.ok fr =>
        if fr.ok = false then
          ([RedditCall.lease, RedditCall.fetchImage imageUrl],
           Except.error ("Failed to fetch image: " ++ toString fr.status))
        else
          match env.put n with
          | Except.error e =>
            ([RedditCall.lease, RedditCall.fetchImage imageUrl,
              RedditCall.putUpload ("https:" ++ lr.action)], Except.error e)
          | Except.ok pr =>
            if pr.ok = false then
              ([RedditCall.lease, RedditCall.fetchImage imageUrl,
                RedditCall.putUpload ("https:" ++ lr.action)],
               Except.error ("Failed to upload image: " ++ toString pr.status))
            else
              ([RedditCall.lease, RedditCall.fetchImage imageUrl,
                RedditCall.putUpload ("https:" ++ lr.action)],
               Except.ok { assetId := lr.asset_id, imageUrl := s3Base ++ lr.key.getD "undefined" })

/-- The gallery upload loop: one `uploadMediaForGallery` per item (indexed
from `n`), collecting the media ids in order; a thrown error aborts. -/
def collectGalleryIds (env : RedditEnv) (n : Nat) :
    List MediaItem → List RedditCall × Except String (List String)
  | [] => ([], Except.ok [])
  | m :: rest =>
    match uploadMediaForGallery env n m.cloudinaryUrl with
    | (tr, Except.error e) => (tr, Except.error e)
    | (tr, Except.ok mid) =>
      match collectGalleryIds env (n + 1) rest with
      | (tr2, Except.error e) => (tr ++ tr2, Except.error e)
      | (tr2, Except.ok ids) => (tr ++ tr2, Except.ok (mid :: ids))

/-- `customSubreddit && customSubreddit.trim() ? customSubreddit.trim() :
'test'`. -/
def subredditOf : Option String → String
  | some c => if jsTrim c ≠ "" then jsTrim c else "test"
  | none => "test"

def selfSubmission (sr title text : String) : RedditSubmission :=
  { kind := "self", sr := sr, title := title, text := some text, url := none, items := [] }

def imageSubmission (sr title url : String) : RedditSubmission :=
  { kind := "image", sr := sr, title := title, text := none, url := some url, items := [] }

def gallerySubmission (sr title : String) (ids : List String) : RedditSubmission :=
  { kind := "gallery", sr := sr, title := title, text := none, url := none, items := ids }

/-- A successful Reddit publish: the returned `postId` and `url`. -/
structure RedditSuccess where
  postId : String
  url : String
deriving DecidableEq

/-- Gallery branch (`media.length > 1`): upload every item via the lease
protocol, then submit one gallery post referencing all media ids; surface a
non-empty `errors` array or a missing post id as thrown errors. -/
def redditGalleryBranch (env : RedditEnv) (subreddit title : String)
    (items : List MediaItem) : List RedditCall × Except String RedditSuccess :=
  match collectGalleryIds env 0 items with
  | (tr, Except.error e) => (tr, Except.error e)
  | (tr, Except.ok ids) =>
    let g := gallerySubmission subreddit title ids
    let trace := tr ++ [RedditCall.submit "submit_gallery_post" g]
    match env.submit "submit_gallery_post" g with
    | Except.error e => (trace, Except.error e)
    | Except.ok resp =>
      if resp.ok = false then
        (trace, Except.error ("Reddit gallery post failed: " ++ toString resp.status))
      else if resp.errors ≠ [] then
        (trace, Except.error ("Reddit API error: " ++ stringifyErrors resp.errors))
      else if jsTruthy resp.id = false then
        (trace, Except.error "Reddit post failed - no post ID returned")
      else
        (trace, Except.ok { postId := resp.id.getD "", url := jsOrD resp.url "" })

/-- Single-image branch (`media.length === 1`): upload the image, then
submit an image link post whose `url` is the uploaded asset's URL.  Success
requires either `id` or `user_submitted_page` in the response. -/
def redditSingleImageBranch (env : RedditEnv) (subreddit title : String)
    (m : MediaItem) : List RedditCall × Except String RedditSuccess :=
  match uploadImageToRedditAsset env 0 m.cloudinaryUrl with
  | (tr, Except.error e) => (tr, Except.error e)
  | (tr, Except.ok asset) =>
    let s := imageSubmission subreddit title asset.imageUrl
    let trace := tr ++ [RedditCall.submit "submit" s]
    match env.submit "submit" s with
    | Except.error e => (trace, Except.error e)
    | Except.ok resp =>
      if resp.ok = false then
        (trace, Except.error ("Reddit single image post failed: " ++ toString resp.status))
      else if resp.errors ≠ [] then
        (trace, Except.error ("Reddit API error: " ++ stringifyErrors resp.errors))
      else if jsTruthy resp.id = false ∧ jsTruthy resp.user_submitted_page = false then
        (trace, Except.error "Reddit post failed - no post confirmation returned")
      else
        (trace, Except.ok { postId := jsOrD resp.id (jsOrD resp.name "unknown"),
                            url := jsOrD resp.url (jsOrD resp.user_submitted_page "") })

/-- Legacy text branch: reached when `media` is truthy but not an array
with ≥ 1 items (the old `{hasMedia: ...}` object format).  Submits a self
post and — unlike the other branches — returns success with no `errors`
check and no post-id check. -/
def redditLegacyTextBranch (env : RedditEnv) (subreddit title content : String) :
    List RedditCall × Except String RedditSuccess :=
  let s := selfSubmission subreddit title content
  let trace := [RedditCall.submit "submit" s]
  match env.submit "submit" s with
  | Except.error e => (trace, Except.error e)
  | Except.ok resp =>
    if resp.ok = false then
      (trace, Except.error ("Reddit post failed: " ++ toString resp.status))
    else
      (trace, Except.ok { postId := jsOrD resp.id "unknown", url := jsOrD resp.url "" })

/-- No-media branch: submit a self post, surfacing a non-empty `errors`
array or a missing post id as thrown errors. -/
def redditTextBranch (env : RedditEnv) (subreddit title content : String) :
    List RedditCall × Except String RedditSuccess :=
  let s := selfSubmission subreddit title content
  let trace := [RedditCall.submit "submit" s]
  match env.submit "submit" s with
  | Except.error e => (trace, Except.error e)
  | Except.ok resp =>
    if resp.ok = false then
      (trace, Except.error ("Reddit post failed: " ++ toString resp.status))
    else if resp.errors ≠ [] then
      (trace, Except.error ("Reddit API error: " ++ stringifyErrors resp.errors))
    else if jsTruthy resp.id = false then
      (trace, Except.error "Reddit post failed - no post ID returned")
    else
      (trace, Except.ok { postId := resp.id.getD "", url := jsOrD resp.url "" })

/-- The `try` body of `postToReddit`: branch on the media shape exactly as
the source's `if (Array.isArray(media) && media.length > 1) ... else if
(... === 1) ... else ...` chain. -/
def redditBody (env : RedditEnv) (content accessToken : String) (media : Media)
    (customSubreddit : Option String) : List RedditCall × Except String RedditSuccess :=
  let subreddit := subredditOf customSubreddit
  let title := jsSubstring content 300
  if mediaPresent media then
    match media with
    | Media.arr (m1 :: m2 :: rest) => redditGalleryBranch env subreddit title (m1 :: m2 :: rest)
    | Media.arr [m] => redditSingleImageBranch env subreddit title m
    | _ => redditLegacyTextBranch env subreddit title content
  else
    redditTextBranch env subreddit title content

/-- `postToReddit(content, accessToken, media, userAccount,
customSubreddit)`: the body wrapped by the top-level `catch` (the
`userAccount` parameter is accepted but unused, as in the source). -/
def postToReddit (env : RedditEnv) (content accessToken : String) (media : Media)
    (userAccount : Option Account) (customSubreddit : Option String) :
    PubResult × List RedditCall :=
  match redditBody env content accessToken media customSubreddit with
  | (tr, Except.ok s) => ({ success := true, postId := some s.postId, error := none }, tr)
  | (tr, Except.error e) => ({ success := false, postId := none, error := some e }, tr)

/-! ## LinkedIn publisher (`postToLinkedin`) -/

/-- Response to the `/v2/userinfo` profile call (`sub` claim). -/
structure LiProfileResp where
  ok : Bool
  sub : String
deriving DecidableEq

/-- The ugcPosts share payload: author URN, media category (`IMAGE` or
`NONE`) and the referenced asset URNs. -/
structure ShareData where
  author : String
  shareMediaCategory : String
  mediaAssets : List String
  text : String
deriving DecidableEq

/-- Response to the ugcPosts call. -/
structure ShareResp where
  ok : Bool
  status : Nat
  errText : String
  id : Option String
deriving DecidableEq

/-- Oracle environment for the LinkedIn publisher; `uploadImage` stands for
`uploadImageToLinkedin` (register slot, fetch bytes, PUT), returning the
asset URN or the thrown error. -/
structure LiEnv where
  profile : Except String LiProfileResp
  uploadImage : String → Except String String
  postShare : ShareData → Except String ShareResp

/-- The image upload loop: one `uploadImageToLinkedin` per item on
`cloudinaryUrl || url`; a thrown error propagates (no inner catch). -/
def collectLinkedinAssets (env : LiEnv) : List MediaItem → Except String (List String)
  | [] => Except.ok []
  | m :: rest =>
    match env.uploadImage (jsOrS m.cloudinaryUrl m.url) with
    | Except.error e => Except.error e
    | Except.ok urn =>
      match collectLinkedinAssets env rest with
      | Except.error e => Except.error e
      | Except.ok urns => Except.ok (urn :: urns)

/-- The `try` body of `postToLinkedin`: resolve the member identity, upload
media (arrays capped at 4 items), build the share, post it. -/
def liBody (env : LiEnv) (now : Nat) (content accessToken : String) (media : Media) :
    Except String String :=
  match env.profile with
  | Except.error e => Except.error e
  | Except.ok pr =>
    if pr.ok = false then Except.error "Failed to get LinkedIn profile"
    else
      let personUrn := "urn:li:person:" ++ pr.sub
      if mediaPresent media then
        let toUpload :=
          match media with
          | Media.arr items => items.take 4
          | _ => mediaArray media
        match collectLinkedinAssets env toUpload with
        | Except.error e => Except.error e
        | Except.ok assetUrns =>
          let shareData : ShareData :=
            { author := personUrn, shareMediaCategory := "IMAGE",
              mediaAssets := assetUrns, text := content }
          match env.postShare shareData with
          | Except.error e => Except.error e
          | Except.ok resp =>
            if resp.ok = false then
              Except.error ("LinkedIn API error: " ++ toString resp.status)
            else Except.ok (jsOrD resp.id ("linkedin_" ++ toString now))
      else
        let shareData : ShareData :=
          { author := personUrn, shareMediaCategory := "NONE", mediaAssets := [], text := content }
        match env.postShare shareData with
        | Except.error e => Except.error e
        | Except.ok resp =>
          if resp.ok = false then
            Except.error ("LinkedIn API error: " ++ toString resp.status)
          else Except.ok (jsOrD resp.id ("linkedin_" ++ toString now))

/-- `postToLinkedin(content, accessToken, media)`: the body wrapped by the
top-level `catch` (`now` models the ambient clock used for the fallback
post id). -/
def postToLinkedin (env : LiEnv) (now : Nat) (content accessToken : String)
    (media : Media) : PubResult :=
  match liBody env now content accessToken media with
  | Except.ok pid => { success := true, postId := some pid, error := none }
  | Except.error e => { success := false, postId := none, error := some e }

/-! ## Batch orchestrator (`processScheduledPosts`) -/

/-- A persisted post document, with the fields the orchestrator touches.
`platformResults` is the persisted mapping as an association list (the JS
object keyed by platform). -/
structure PostDoc where
  content : String
  platforms : List String
  media : Media
  status : String
  publishedAt : Option Nat
  platformResults : List (String × PubResult)
  errorMessage : Option String

/-- A user document: the per-platform connected accounts object and the
sent-post counter. -/
structure UserDoc where
  connectedAccounts : String → Option Account
  postsCount : Nat

/-- One platform attempt's settled value `{platform, success, postId?,
error?}` (the `sentAt` timestamp is dropped when persisting). -/
structure PlatformOutcome where
  platform : String
  success : Bool
  postId : Option String
  error : Option String
deriving DecidableEq

/-- Oracle environment for one batch run: the three publishers' remote
ends, plus whether the 5-second race timer beats the Twitter call. -/
structure BatchEnv where
  tw : TwEnv
  li : LiEnv
  rd : RedditEnv
  twitterTimesOut : Bool

/-- The per-platform task inside `processScheduledPosts`: precondition
checks (account present, connected, non-empty access token) synthesize a
failure without calling any publisher; otherwise dispatch on the platform
string (default: unsupported platform). -/
def processPlatform (now : Nat) (env : BatchEnv) (user : UserDoc) (post : PostDoc)
    (platform : String) : PlatformOutcome :=
  match user.connectedAccounts platform with
  | none =>
    { platform := platform, success := false, postId := none,
      error := some (platform ++ " account not found") }
  | some account =>
    if account.connected = false then
      { platform := platform, success := false, postId := none,
        error := some (platform ++ " account not connected") }
    else if account.accessToken = "" then
      { platform := platform, success := false, postId := none,
        error := some (platform ++ " account missing access token") }
    else if platform = "twitter" then
      if env.twitterTimesOut then
        { platform := platform, success := false, postId := none,
          error := some "Twitter API timeout" }
      else
        let r := (postToTwitter env.tw post.content account.accessToken post.media
          (some account)).1
        { platform := platform, success := r.success, postId := r.postId, error := r.error }
    else if platform = "linkedin" then
      let r := postToLinkedin env.li now post.content account.accessToken post.media
      { platform := platform, success := r.success, postId := r.postId, error := r.error }
    else if platform = "reddit" then
      let r := (postToReddit env.rd post.content account.accessToken post.media
        (some account) (some "test")).1
      { platform := platform, success := r.success, postId := r.postId, error := r.error }
    else
      { platform := platform, success := false, postId := none,
        error := some "unsupported platform" }

/-- Processing of one due post: run all platform tasks, aggregate
`hasSuccess`, rebuild `platformResults` from scratch, set
`status`/`publishedAt`, and increment the owner's `postsCount` when at
least one platform succeeded.  Returns the saved post, the updated user and
the `hasSuccess` flag. -/
def processPost (now : Nat) (env : BatchEnv) (user : UserDoc) (post : PostDoc) :
    PostDoc × UserDoc × Bool :=
  let results := post.platforms.map (processPlatform now env user post)
  let hasSuccess := results.any (fun r => r.success)
  let post' : PostDoc :=
    { post with
      platformResults := results.map (fun r =>
        (r.platform, { success := r.success, postId := r.postId, error := r.error })),
      status := if hasSuccess then "published" else "failed",
      publishedAt := if hasSuccess then some now else none }
  let user' : UserDoc :=
    if hasSuccess then { user with postsCount := user.postsCount + 1 } else user
  (post', user', hasSuccess)

/-- The batch loop of `processScheduledPosts` over the selected due posts
(each paired with its populated owner): returns the run's `processed` count
— incremented only for posts with at least one platform success — and the
saved post documents. -/
def processScheduledPosts (now : Nat) (env : BatchEnv) :
    List (UserDoc × PostDoc) → Nat × List PostDoc
  | [] => (0, [])
  | (user, post) :: rest =>
    let (post', _, hasSuccess) := processPost now env user post
    let (c, saved) := processScheduledPosts now env rest
    ((if hasSuccess then 1 else 0) + c, post' :: saved)

/-! ## Concrete fixtures for witnesses and counterexamples -/

/-- A Twitter environment whose remote calls all fail. -/
def cTwEnvDown : TwEnv :=
  { uploadMedia := fun _ => Except.error "network down",
    postTweet := fun _ => Except.error "network down" }

/-- A LinkedIn environment whose remote calls all fail. -/
def cLiEnvDown : LiEnv :=
  { profile := Except.error "network down",
    uploadImage := fun _ => Except.error "network down",
    postShare := fun _ => Except.error "network down" }

/-- A Reddit environment whose remote calls all fail. -/
def cRdEnvDown : RedditEnv :=
  { lease := fun _ => Except.error "network down",
    fetchImage := fun _ => Except.error "network down",
    put := fun _ => Except.error "network down",
    submit := fun _ _ => Except.error "network down" }

/-- A batch environment built from the failing publishers. -/
def cBatchEnv : BatchEnv :=
  { tw := cTwEnvDown, li := cLiEnvDown, rd := cRdEnvDown, twitterTimesOut := false }

/-- A twitter account record with `connected = false`. -/
def cAccountDisconnected : Account :=
  { connected := false, accessToken := "tok", oauth1aAccessToken := "",
    oauth1aAccessTokenSecret := "" }

/-- A user whose only account is the disconnected twitter account. -/
def cUserDisconnected : UserDoc :=
  { connectedAccounts := fun p => if p = "twitter" then some cAccountDisconnected else none,
    postsCount := 3 }

/-- A scheduled post requesting only twitter. -/
def cPostTwitterOnly : PostDoc :=
  { content := "hello world", platforms := ["twitter"], media := Media.mnull,
    status := "scheduled", publishedAt := none, platformResults := [],
    errorMessage := none }

/-- A Twitter environment whose tweet endpoint succeeds (media uploads
fail, which a text-only call never consults). -/
def cTwEnvTextOk : TwEnv :=
  { uploadMedia := fun _ => Except.error "network down",
    postTweet := fun _ =>
      Except.ok { ok := true, status := 201, errBody := "", id := some "t1" } }

/-- A connected twitter account lacking the OAuth 1.0a pair. -/
def cAccountNoPair : Account :=
  { connected := true, accessToken := "tok", oauth1aAccessToken := "",
    oauth1aAccessTokenSecret := "s" }

/-- A chunked-upload environment where every phase succeeds and FINALIZE
reports pending async processing. -/
def cGifEnvOk : TwUploadEnv :=
  { initResp := { ok := true, status := 202, errText := "", media_id_string := "mid9" },
    appendResp := { ok := true, status := 204, errText := "" },
    finalizeResp := { ok := true, status := 200, errText := "", processing_info := true } }

/-- A Reddit environment whose remote calls all succeed. -/
def cRdEnvUp : RedditEnv :=
  { lease := fun _ => Except.ok
      { ok := true, status := 200, action := "//act", asset_id := "as", key := some "k" },
    fetchImage := fun _ => Except.ok { ok := true, status := 200, errText := "" },
    put := fun _ => Except.ok { ok := true, status := 200, errText := "" },
    submit := fun _ _ => Except.ok
      { ok := true, status := 200, errors := [], id := some "p1", name := none,
        url := some "https://r/p1", user_submitted_page := none } }

/-- A submit response that is HTTP-ok but carries a non-empty API error
array and no post identifier. -/
def cSubmitRespErrors : SubmitResp :=
  { ok := true, status := 200, errors := ["e1"], id := none, name := none,
    url := none, user_submitted_page := none }

/-- A Reddit environment whose submit endpoint reports API errors. -/
def cRdEnvErrors : RedditEnv :=
  { lease := fun _ => Except.error "network down",
    fetchImage := fun _ => Except.error "network down",
    put := fun _ => Except.error "network down",
    submit := fun _ _ => Except.ok cSubmitRespErrors }

/-- A Reddit environment with working uploads whose submit endpoint
reports API errors. -/
def cRdEnvUpErrors : RedditEnv :=
  { cRdEnvUp with submit := fun _ _ => Except.ok cSubmitRespErrors }

/-! ## Helper lemmas -/

/-- `any` over a mapped list. -/
theorem list_any_map {α β : Type} (l : List α) (f : α → β) (p : β → Bool) :
    (l.map f).any p = l.any (fun x => p (f x)) := by
  induction l with
  | nil => rfl
  | cons a t ih => simp [List.any, ih]

/-- Every platform task reports the platform it was spawned for. -/
theorem processPlatform_platform (now : Nat) (env : BatchEnv) (user : UserDoc)
    (post : PostDoc) (p : String) :
    (processPlatform now env user post p).platform = p := by
  unfold processPlatform
  cases user.connectedAccounts p with
  | none => rfl
  | some account =>
    by_cases h1 : account.connected = false <;>
      by_cases h2 : account.accessToken = "" <;>
        by_cases h3 : p = "twitter" <;>
          by_cases h4 : env.twitterTimesOut <;>
            by_cases h5 : p = "linkedin" <;>
              by_cases h6 : p = "reddit" <;>
                simp [h1, h2, h3, h4, h5, h6]

/-- The persisted `platformResults` and the in-memory task results agree on
whether any platform succeeded. -/
theorem processPost_any_success (now : Nat) (env : BatchEnv) (user : UserDoc)
    (post : PostDoc) :
    (processPost now env user post).1.platformResults.any (fun kv => kv.2.success)
      = (post.platforms.map (processPlatform now env user post)).any (fun r => r.success) := by
  simp only [processPost]
  rw [list_any_map]

/-- `hasSuccess` as returned by `processPost` is the aggregate of the
platform task results. -/
theorem processPost_hasSuccess (now : Nat) (env : BatchEnv) (user : UserDoc)
    (post : PostDoc) :
    (processPost now env user post).2.2
      = (post.platforms.map (processPlatform now env user post)).any (fun r => r.success) := by
  simp [processPost]

/-! ## Claim theorems -/

/-- C1: for every post processed in a batch run, the final status is
`published` with `publishedAt` set to the current time iff at least one of
the persisted per-platform results succeeded; otherwise the status is
`failed` and `publishedAt` is unset. -/
theorem postStatusIffAnyPlatformSuccess (now : Nat) (env : BatchEnv)
    (user : UserDoc) (post : PostDoc) :
    ((processPost now env user post).1.status = "published"
        ↔ (processPost now env user post).1.platformResults.any (fun kv => kv.2.success) = true) ∧
    (processPost now env user post).1.publishedAt
      = (if (processPost now env user post).1.platformResults.any (fun kv => kv.2.success)
         then some now else none) ∧
    ((processPost now env user post).1.status = "published"
       ∨ (processPost now env user post).1.status = "failed") := by
  rw [processPost_any_success]
  simp only [processPost]
  by_cases h : (post.platforms.map (processPlatform now env user post)).any (fun r => r.success)
  · simp [h]
  · simp [h]

/-- C2: for every processed post, the key list of the persisted
`platformResults` mapping is exactly the post's requested `platforms` —
one entry per requested platform and no key outside that set. -/
theorem perPlatformResultKeysEqPlatforms (now : Nat) (env : BatchEnv)
    (user : UserDoc) (post : PostDoc) :
    (processPost now env user post).1.platformResults.map Prod.fst = post.platforms := by
  simp only [processPost, List.map_map]
  have h1 : post.platforms.map
        (Prod.fst ∘ (fun r : PlatformOutcome =>
            (r.platform, PubResult.mk r.success r.postId r.error))
          ∘ processPlatform now env user post)
      = post.platforms.map id := by
    apply List.map_congr_left
    intro p _
    show (processPlatform now env user post p).platform = p
    exact processPlatform_platform now env user post p
  rw [h1, List.map_id]

/-- C4: the owner's `postsCount` is incremented by exactly 1 when the post
transitions to `published`, and is unchanged when the post ends `failed`
(the final status being always one of the two). -/
theorem ownerCounterIncrementOncePerPublishedPost (now : Nat) (env : BatchEnv)
    (user : UserDoc) (post : PostDoc) :
    (processPost now env user post).2.1.postsCount
      = user.postsCount
        + (if (processPost now env user post).1.status = "published" then 1 else 0) ∧
    ((processPost now env user post).1.status = "published"
       ∨ (processPost now env user post).1.status = "failed") := by
  simp only [processPost]
  by_cases h : (post.platforms.map (processPlatform now env user post)).any (fun r => r.success)
  · simp [h]
  · simp [h]

/-- C10: the `processed` count returned by a batch run equals the number of
saved posts whose persisted per-platform results contain at least one
success — posts persisted as all-failed are excluded, so a run of only
failing posts reports 0 while still having mutated those posts. -/
theorem processedCountEqPostsWithASuccess (now : Nat) (env : BatchEnv)
    (duePosts : List (UserDoc × PostDoc)) :
    (processScheduledPosts now env duePosts).1
      = ((processScheduledPosts now env duePosts).2.countP
          (fun p => p.platformResults.any (fun kv => kv.2.success))) ∧
    ((processScheduledPosts now env duePosts).2.all
        (fun p => decide (p.status = "published") || decide (p.status = "failed"))) = true := by
  induction duePosts with
  | nil => exact ⟨rfl, rfl⟩
  | cons pair rest ih =>
    obtain ⟨user, post⟩ := pair
    constructor
    · simp only [processScheduledPosts]
      rw [List.countP_cons]
      have hs : (processPost now env user post).2.2
          = (processPost now env user post).1.platformResults.any (fun kv => kv.2.success) := by
        rw [processPost_hasSuccess, processPost_any_success]
      by_cases h : (processPost now env user post).1.platformResults.any (fun kv => kv.2.success)
      · simp [hs, h, ih.1, Nat.add_comm]
      · simp [hs, h, ih.1]
    · simp only [processScheduledPosts, List.all_cons, Bool.and_eq_true]
      refine ⟨?_, ih.2⟩
      simp only [processPost]
      by_cases h : (post.platforms.map (processPlatform now env user post)).any
          (fun r => r.success)
      · simp [h]
      · simp [h]

/-- C3: a missing account, a disconnected account, or an empty access token
synthesizes a `{success:false, error}` result for that platform without
consulting any publisher (the result is the same for every environment);
in particular a twitter-only post whose owner's twitter account has
`connected=false` ends `failed` with
`perPlatformResult.twitter = {success:false, error:'twitter account not
connected'}` and the owner's counter unchanged. -/
theorem accountPreconditionFailures :
    (∀ (now : Nat) (env : BatchEnv) (user : UserDoc) (post : PostDoc) (p : String),
      user.connectedAccounts p = none →
      processPlatform now env user post p
        = { platform := p, success := false, postId := none,
            error := some (p ++ " account not found") }) ∧
    (∀ (now : Nat) (env : BatchEnv) (user : UserDoc) (post : PostDoc) (p : String)
        (acc : Account),
      user.connectedAccounts p = some acc → acc.connected = false →
      processPlatform now env user post p
        = { platform := p, success := false, postId := none,
            error := some (p ++ " account not connected") }) ∧
    (∀ (now : Nat) (env : BatchEnv) (user : UserDoc) (post : PostDoc) (p : String)
        (acc : Account),
      user.connectedAccounts p = some acc → acc.connected = true → acc.accessToken = "" →
      processPlatform now env user post p
        = { platform := p, success := false, postId := none,
            error := some (p ++ " account missing access token") }) ∧
    (∀ (now : Nat) (env : BatchEnv) (user : UserDoc) (post : PostDoc) (acc : Account),
      post.platforms = ["twitter"] →
      user.connectedAccounts "twitter" = some acc → acc.connected = false →
      (processPost now env user post).1.status = "failed" ∧
      (processPost now env user post).1.platformResults
        = [("twitter", PubResult.mk false none (some "twitter account not connected"))] ∧
      (processPost now env user post).2.1.postsCount = user.postsCount) := by
  refine ⟨?_, ?_, ?_, ?_⟩
  · intro now env user post p h
    unfold processPlatform
    rw [h]
  · intro now env user post p acc h hconn
    unfold processPlatform
    rw [h]
    simp [hconn]
  · intro now env user post p acc h hconn htok
    unfold processPlatform
    rw [h]
    simp [hconn, htok]
  · intro now env user post acc hplat hacc hconn
    have hp : processPlatform now env user post "twitter"
        = { platform := "twitter", success := false, postId := none,
            error := some "twitter account not connected" } := by
      unfold processPlatform
      rw [hacc]
      simp [hconn]
    simp [processPost, hplat, hp]

/-- Closed witness for the C3 theorem at concrete inputs. -/
theorem accountPreconditionFailures_witness :
    processPlatform 7 cBatchEnv cUserDisconnected cPostTwitterOnly "twitter"
      = { platform := "twitter", success := false, postId := none,
          error := some "twitter account not connected" } ∧
    (processPost 7 cBatchEnv cUserDisconnected cPostTwitterOnly).1.status = "failed" ∧
    (processPost 7 cBatchEnv cUserDisconnected cPostTwitterOnly).2.1.postsCount
      = cUserDisconnected.postsCount := by
  refine ⟨?_, ?_, ?_⟩
  · exact accountPreconditionFailures.2.1 7 cBatchEnv cUserDisconnected cPostTwitterOnly
      "twitter" cAccountDisconnected rfl rfl
  · exact (accountPreconditionFailures.2.2.2 7 cBatchEnv cUserDisconnected cPostTwitterOnly
      cAccountDisconnected rfl rfl rfl).1
  · exact (accountPreconditionFailures.2.2.2 7 cBatchEnv cUserDisconnected cPostTwitterOnly
      cAccountDisconnected rfl rfl rfl).2.2

/-- C5: each platform publisher is total over every input and environment
(nothing escapes its boundary), and every internal failure surfaces as a
`{success:false, error:<message>}` value. -/
theorem publishersNeverThrow :
    (∀ (env : TwEnv) (content accessToken : String) (media : Media)
        (acc : Option Account),
      ((postToTwitter env content accessToken media acc).1.success = true
          ∧ (postToTwitter env content accessToken media acc).1.error = none)
        ∨ ((postToTwitter env content accessToken media acc).1.success = false
          ∧ ((postToTwitter env content accessToken media acc).1.error).isSome = true)) ∧
    (∀ (env : RedditEnv) (content accessToken : String) (media : Media)
        (acc : Option Account) (sub : Option String),
      ((postToReddit env content accessToken media acc sub).1.success = true
          ∧ (postToReddit env content accessToken media acc sub).1.error = none)
        ∨ ((postToReddit env content accessToken media acc sub).1.success = false
          ∧ ((postToReddit env content accessToken media acc sub).1.error).isSome = true)) ∧
    (∀ (env : LiEnv) (now : Nat) (content accessToken : String) (media : Media),
      ((postToLinkedin env now content accessToken media).success = true
          ∧ (postToLinkedin env now content accessToken media).error = none)
        ∨ ((postToLinkedin env now content accessToken media).success = false
          ∧ ((postToLinkedin env now content accessToken media).error).isSome = true)) := by
  refine ⟨?_, ?_, ?_⟩
  · intro env content accessToken media acc
    unfold postToTwitter
    rcases h : twBody env content accessToken media acc with ⟨sent, r⟩
    cases r with
    | ok pid => left; simp [h]
    | error e => right; simp [h]
  · intro env content accessToken media acc sub
    unfold postToReddit
    rcases h : redditBody env content accessToken media sub with ⟨tr, r⟩
    cases r with
    | ok s => left; simp [h]
    | error e => right; simp [h]
  · intro env now content accessToken media
    unfold postToLinkedin
    cases h : liBody env now content accessToken media with
    | ok pid => left; simp [h]
    | error e => right; simp [h]

/-- C8: when media is requested but the account lacks the OAuth 1.0a
legacy credential pair, the Twitter publisher silently skips media: the
payload sent to the tweet endpoint carries no media reference, and if the
remote text post succeeds the publish succeeds with no error. -/
theorem twitterMediaSkippedWithoutLegacyPair (env : TwEnv)
    (content accessToken : String) (media : Media) (acc : Account) (resp : TweetResp) :
    mediaPresent media = true →
    (acc.oauth1aAccessToken = "" ∨ acc.oauth1aAccessTokenSecret = "") →
    accessToken ≠ "" →
    env.postTweet { text := content, media := none } = Except.ok resp →
    resp.ok = true →
    (postToTwitter env content accessToken media (some acc)).1.success = true ∧
    (postToTwitter env content accessToken media (some acc)).1.error = none ∧
    (postToTwitter env content accessToken media (some acc)).2
      = some { text := content, media := none } := by
  intro hmedia hpair htok hcall hok
  have hids : twitterMediaIds env media (some acc) = none := by
    unfold twitterMediaIds
    rw [hmedia]
    have : ¬(acc.oauth1aAccessToken ≠ "" ∧ acc.oauth1aAccessTokenSecret ≠ "") := by
      rcases hpair with h | h
      · intro hc; exact hc.1 h
      · intro hc; exact hc.2 h
    simp [this]
  unfold postToTwitter twBody
  rw [hids]
  simp [htok, hcall, hok]

/-- Closed witness for the C8 theorem at concrete inputs. -/
theorem twitterMediaSkippedWithoutLegacyPair_witness :
    (postToTwitter cTwEnvTextOk "hi" "tok"
        (Media.arr [MediaItem.mk "https://img" ""]) (some cAccountNoPair)).1.success = true ∧
    (postToTwitter cTwEnvTextOk "hi" "tok"
        (Media.arr [MediaItem.mk "https://img" ""]) (some cAccountNoPair)).2
      = some { text := "hi", media := none } := by
  have h := twitterMediaSkippedWithoutLegacyPair cTwEnvTextOk "hi" "tok"
    (Media.arr [MediaItem.mk "https://img" ""]) cAccountNoPair
    { ok := true, status := 201, errBody := "", id := some "t1" }
    rfl (Or.inl rfl) (by decide) rfl rfl
  exact ⟨h.1, h.2.2⟩

/-- A successful gallery-item upload performs exactly one lease request
(then a source fetch and a PUT). -/
theorem uploadMediaForGallery_ok_lease_count (env : RedditEnv) (n : Nat)
    (url : String) (tr : List RedditCall) (mid : String) :
    uploadMediaForGallery env n url = (tr, Except.ok mid) →
    tr.countP (fun c => decide (c = RedditCall.lease)) = 1 := by
  intro h
  unfold uploadMediaForGallery at h
  cases henv : env.lease n with
  | error e => rw [henv] at h; simp at h
  | ok lr =>
    rw [henv] at h
    by_cases hok : lr.ok = false
    · simp [hok] at h
    · simp only [hok, if_neg, ite_false] at h
      cases hf : env.fetchImage url with
      | error e => rw [hf] at h; simp at h
      | ok fr =>
        rw [hf] at h
        by_cases hfok : fr.ok = false
        · simp [hfok] at h
        · simp only [hfok, ite_false] at h
          cases hp : env.put n with
          | error e => rw [hp] at h; simp at h
          | ok pr =>
            rw [hp] at h
            by_cases hpok : pr.ok = false
            · simp [hpok] at h
            · simp only [hpok, ite_false] at h
              have htr : tr
                  = [RedditCall.lease, RedditCall.fetchImage url,
                     RedditCall.putUpload ("https:" ++ lr.action)] := by
                have hfst := congrArg Prod.fst h
                exact hfst.symm
              subst htr
              rfl

/-- A successful gallery upload loop yields one media id per item and one
lease request per item. -/
theorem collectGalleryIds_ok (env : RedditEnv) :
    ∀ (items : List MediaItem) (n : Nat) (tr : List RedditCall) (ids : List String),
    collectGalleryIds env n items = (tr, Except.ok ids) →
    ids.length = items.length ∧
    tr.countP (fun c => decide (c = RedditCall.lease)) = items.length := by
  intro items
  induction items with
  | nil =>
    intro n tr ids h
    unfold collectGalleryIds at h
    injection h with h1 h2
    subst h1
    injection h2 with h3
    subst h3
    simp
  | cons m rest ih =>
    intro n tr ids h
    unfold collectGalleryIds at h
    cases h1 : uploadMediaForGallery env n m.cloudinaryUrl with
    | mk tr1 r1 =>
      rw [h1] at h
      cases r1 with
      | error e => simp at h
      | ok mid =>
        simp only at h
        cases h2 : collectGalleryIds env (n + 1) rest with
        | mk tr2 r2 =>
          rw [h2] at h
          cases r2 with
          | error e => simp at h
          | ok ids2 =>
            simp only [Prod.mk.injEq] at h
            obtain ⟨htr, hids⟩ := h
            have hcount1 := uploadMediaForGallery_ok_lease_count env n m.cloudinaryUrl tr1 mid h1
            have hrest := ih (n + 1) tr2 ids2 h2
            subst htr
            cases hids
            constructor
            · simp [hrest.1]
            · simp [List.countP_append, hcount1, hrest.2, Nat.add_comm]

/-- C9: the chunked GIF upload never issues a STATUS poll (for any
environment), and on a fully successful run with `processing_info` present
in the FINALIZE response the request trace is exactly INIT (declaring the
payload size and category), one APPEND carrying the whole payload base64
encoded at segment index 0, then FINALIZE — and the media id is returned
immediately. -/
theorem gifChunkedUploadProtocol (env : TwUploadEnv) (mediaBuffer : List Nat)
    (mediaType mediaCategory : String) :
    hasStatusCall (uploadGifChunked env mediaBuffer mediaType mediaCategory).1 = false ∧
    (env.initResp.ok = true → env.appendResp.ok = true → env.finalizeResp.ok = true →
      env.finalizeResp.processing_info = true →
      (uploadGifChunked env mediaBuffer mediaType mediaCategory).1
        = [TwMediaCall.init mediaBuffer.length mediaType mediaCategory,
           TwMediaCall.append env.initResp.media_id_string 0 (base64Encode mediaBuffer),
           TwMediaCall.finalize env.initResp.media_id_string] ∧
      (uploadGifChunked env mediaBuffer mediaType mediaCategory).2
        = Except.ok env.initResp.media_id_string) := by
  constructor
  · unfold uploadGifChunked hasStatusCall
    by_cases h1 : env.initResp.ok = false <;>
      by_cases h2 : env.appendResp.ok = false <;>
        by_cases h3 : env.finalizeResp.ok = false <;>
          by_cases h4 : env.finalizeResp.processing_info = true <;>
            simp [h1, h2, h3, h4, List.any]
  · intro h1 h2 h3 h4
    unfold uploadGifChunked
    simp [h1, h2, h3, h4]

/-- Closed witness for the C9 theorem at a concrete environment and
payload. -/
theorem gifChunkedUploadProtocol_witness :
    hasStatusCall (uploadGifChunked cGifEnvOk [71, 73, 70] "image/gif" "tweet_gif").1 = false ∧
    (uploadGifChunked cGifEnvOk [71, 73, 70] "image/gif" "tweet_gif").1
      = [TwMediaCall.init 3 "image/gif" "tweet_gif",
         TwMediaCall.append "mid9" 0 (base64Encode [71, 73, 70]),
         TwMediaCall.finalize "mid9"] ∧
    (uploadGifChunked cGifEnvOk [71, 73, 70] "image/gif" "tweet_gif").2
      = Except.ok "mid9" := by
  have h := gifChunkedUploadProtocol cGifEnvOk [71, 73, 70] "image/gif" "tweet_gif"
  exact ⟨h.1, (h.2 rfl rfl rfl rfl).1, (h.2 rfl rfl rfl rfl).2⟩

/-- C6: Reddit media routing — 0 media items submits a self (text) post;
exactly 1 uploads the image via the lease-then-PUT protocol and submits a
single image link post whose URL references the uploaded asset; 2 or more
upload each item via the lease protocol (one lease per item) and submit one
gallery post referencing all obtained media identifiers. -/
theorem redditMediaRouting :
    (∀ (env : RedditEnv) (content accessToken : String) (acc : Option Account)
        (sub : Option String),
      (postToReddit env content accessToken (Media.arr []) acc sub).2
        = [RedditCall.submit "submit"
            (selfSubmission (subredditOf sub) (jsSubstring content 300) content)]) ∧
    (∀ (env : RedditEnv) (content accessToken : String) (acc : Option Account)
        (sub : Option String) (m : MediaItem) (lr : LeaseResp) (fr pr : HttpResp),
      env.lease 0 = Except.ok lr → lr.ok = true →
      env.fetchImage m.cloudinaryUrl = Except.ok fr → fr.ok = true →
      env.put 0 = Except.ok pr → pr.ok = true →
      (postToReddit env content accessToken (Media.arr [m]) acc sub).2
        = [RedditCall.lease, RedditCall.fetchImage m.cloudinaryUrl,
           RedditCall.putUpload ("https:" ++ lr.action),
           RedditCall.submit "submit"
             (imageSubmission (subredditOf sub) (jsSubstring content 300)
               (s3Base ++ lr.key.getD "undefined"))]) ∧
    (∀ (env : RedditEnv) (content accessToken : String) (acc : Option Account)
        (sub : Option String) (items : List MediaItem) (tr : List RedditCall)
        (ids : List String),
      2 ≤ items.length →
      collectGalleryIds env 0 items = (tr, Except.ok ids) →
      (postToReddit env content accessToken (Media.arr items) acc sub).2
        = tr ++ [RedditCall.submit "submit_gallery_post"
            (gallerySubmission (subredditOf sub) (jsSubstring content 300) ids)] ∧
      ids.length = items.length ∧
      tr.countP (fun c => decide (c = RedditCall.lease)) = items.length) := by
  refine ⟨?_, ?_, ?_⟩
  · intro env content accessToken acc sub
    unfold postToReddit redditBody redditTextBranch
    cases h : env.submit "submit"
        (selfSubmission (subredditOf sub) (jsSubstring content 300) content) with
    | error e => simp [mediaPresent, h]
    | ok resp =>
      by_cases hok : resp.ok = false <;>
        by_cases herr : resp.errors = [] <;>
          by_cases hid : jsTruthy resp.id = false <;>
            simp [mediaPresent, h, hok, herr, hid]
  · intro env content accessToken acc sub m lr fr pr hl hlok hf hfok hp hpok
    have hup : uploadImageToRedditAsset env 0 m.cloudinaryUrl
        = ([RedditCall.lease, RedditCall.fetchImage m.cloudinaryUrl,
            RedditCall.putUpload ("https:" ++ lr.action)],
           Except.ok { assetId := lr.asset_id, imageUrl := s3Base ++ lr.key.getD "undefined" }) := by
      unfold uploadImageToRedditAsset
      rw [hl, hf, hp]
      simp [hlok, hfok, hpok]
    unfold postToReddit redditBody redditSingleImageBranch
    rw [show mediaPresent (Media.arr [m]) = true from rfl]
    simp only [if_true, ite_true]
    rw [hup]
    cases h : env.submit "submit"
        (imageSubmission (subredditOf sub) (jsSubstring content 300)
          (s3Base ++ lr.key.getD "undefined")) with
    | error e => simp [h]
    | ok resp =>
      by_cases hok : resp.ok = false <;>
        by_cases herr : resp.errors = [] <;>
          by_cases hid : jsTruthy resp.id = false ∧ jsTruthy resp.user_submitted_page = false <;>
            simp [h, hok, herr, hid]
  · intro env content accessToken acc sub items tr ids hlen hgal
    obtain ⟨m1, rest1, rfl⟩ : ∃ m1 rest1, items = m1 :: rest1 := by
      cases items with
      | nil => simp at hlen
      | cons a t => exact ⟨a, t, rfl⟩
    obtain ⟨m2, rest2, rfl⟩ : ∃ m2 rest2, rest1 = m2 :: rest2 := by
      cases rest1 with
      | nil => simp at hlen
      | cons a t => exact ⟨a, t, rfl⟩
    have hcounts := collectGalleryIds_ok env (m1 :: m2 :: rest2) 0 tr ids hgal
    refine ⟨?_, hcounts.1, hcounts.2⟩
    unfold postToReddit redditBody redditGalleryBranch
    rw [show mediaPresent (Media.arr (m1 :: m2 :: rest2)) = true from rfl]
    simp only [if_true, ite_true]
    rw [hgal]
    cases h : env.submit "submit_gallery_post"
        (gallerySubmission (subredditOf sub) (jsSubstring content 300) ids) with
    | error e => simp [h]
    | ok resp =>
      by_cases hok : resp.ok = false <;>
        by_cases herr : resp.errors = [] <;>
          by_cases hid : jsTruthy resp.id = false <;>
            simp [h, hok, herr, hid]

/-- Closed witness for the C6 theorem at concrete inputs: 0, 1 and 2 media
items. -/
theorem redditMediaRouting_witness :
    (postToReddit cRdEnvUp "t" "tok" (Media.arr []) none (some "test")).2
      = [RedditCall.submit "submit" (selfSubmission "test" "t" "t")] ∧
    (postToReddit cRdEnvUp "t" "tok" (Media.arr [MediaItem.mk "u1" ""]) none (some "test")).2
      = [RedditCall.lease, RedditCall.fetchImage "u1", RedditCall.putUpload "https://act",
         RedditCall.submit "submit" (imageSubmission "test" "t" (s3Base ++ "k"))] ∧
    (postToReddit cRdEnvUp "t" "tok"
        (Media.arr [MediaItem.mk "u1" "", MediaItem.mk "u2" ""]) none (some "test")).2
      = [RedditCall.lease, RedditCall.fetchImage "u1", RedditCall.putUpload "https://act",
         RedditCall.lease, RedditCall.fetchImage "u2", RedditCall.putUpload "https://act",
         RedditCall.submit "submit_gallery_post"
           (gallerySubmission "test" "t" ["as", "as"])] := by
  refine ⟨?_, ?_, ?_⟩
  · have h := redditMediaRouting.1 cRdEnvUp "t" "tok" none (some "test")
    exact h.trans (by decide)
  · have h := redditMediaRouting.2.1 cRdEnvUp "t" "tok" none (some "test")
      (MediaItem.mk "u1" "")
      { ok := true, status := 200, action := "//act", asset_id := "as", key := some "k" }
      { ok := true, status := 200, errText := "" }
      { ok := true, status := 200, errText := "" }
      rfl rfl rfl rfl rfl rfl
    exact h.trans (by decide)
  · have h := (redditMediaRouting.2.2 cRdEnvUp "t" "tok" none (some "test")
      [MediaItem.mk "u1" "", MediaItem.mk "u2" ""]
      [RedditCall.lease, RedditCall.fetchImage "u1", RedditCall.putUpload "https://act",
       RedditCall.lease, RedditCall.fetchImage "u2", RedditCall.putUpload "https://act"]
      ["as", "as"] (by decide) rfl).1
    exact h.trans (by decide)

/-- C7 counterexample: on the legacy text branch (non-array media object
with `hasMedia` set) the Reddit publisher returns success even though the
submit response carries a non-empty error array and no post identifier —
refuting the claim that every branch surfaces these as failure. -/
theorem redditLegacyBranchSkipsChecks :
    cRdEnvErrors.submit "submit" (selfSubmission "test" "hello" "hello")
      = Except.ok cSubmitRespErrors ∧
    cSubmitRespErrors.errors = ["e1"] ∧
    cSubmitRespErrors.id = none ∧
    (postToReddit cRdEnvErrors "hello" "tok" (Media.obj true (MediaItem.mk "" "")) none
        (some "test")).1
      = { success := true, postId := some "unknown", error := none } := by
  refine ⟨rfl, rfl, rfl, by decide⟩

/-- C7 (amended): on the no-media self-post, single-image and gallery
branches, a submit response with a non-empty error array yields failure
carrying the serialized error content, and an absent post identifier (for
the single-image branch: both `id` and `user_submitted_page` absent)
yields failure; the legacy text branch performs no such checks. -/
theorem redditSubmitResponseChecked :
    (∀ (env : RedditEnv) (content accessToken : String) (acc : Option Account)
        (sub : Option String) (resp : SubmitResp),
      env.submit "submit" (selfSubmission (subredditOf sub) (jsSubstring content 300) content)
        = Except.ok resp →
      resp.ok = true →
      (resp.errors ≠ [] →
        (postToReddit env content accessToken Media.mnull acc sub).1
          = { success := false, postId := none,
              error := some ("Reddit API error: " ++ stringifyErrors resp.errors) }) ∧
      (resp.errors = [] → jsTruthy resp.id = false →
        (postToReddit env content accessToken Media.mnull acc sub).1
          = { success := false, postId := none,
              error := some "Reddit post failed - no post ID returned" })) ∧
    (∀ (env : RedditEnv) (content accessToken : String) (acc : Option Account)
        (sub : Option String) (m : MediaItem) (lr : LeaseResp) (fr pr : HttpResp)
        (resp : SubmitResp),
      env.lease 0 = Except.ok lr → lr.ok = true →
      env.fetchImage m.cloudinaryUrl = Except.ok fr → fr.ok = true →
      env.put 0 = Except.ok pr → pr.ok = true →
      env.submit "submit"
          (imageSubmission (subredditOf sub) (jsSubstring content 300)
            (s3Base ++ lr.key.getD "undefined"))
        = Except.ok resp →
      resp.ok = true →
      (resp.errors ≠ [] →
        (postToReddit env content accessToken (Media.arr [m]) acc sub).1
          = { success := false, postId := none,
              error := some ("Reddit API error: " ++ stringifyErrors resp.errors) }) ∧
      (resp.errors = [] → jsTruthy resp.id = false → jsTruthy resp.user_submitted_page = false →
        (postToReddit env content accessToken (Media.arr [m]) acc sub).1
          = { success := false, postId := none,
              error := some "Reddit post failed - no post confirmation returned" })) ∧
    (∀ (env : RedditEnv) (content accessToken : String) (acc : Option Account)
        (sub : Option String) (items : List MediaItem) (tr : List RedditCall)
        (ids : List String) (resp : SubmitResp),
      2 ≤ items.length →
      collectGalleryIds env 0 items = (tr, Except.ok ids) →
      env.submit "submit_gallery_post"
          (gallerySubmission (subredditOf sub) (jsSubstring content 300) ids)
        = Except.ok resp →
      resp.ok = true →
      (resp.errors ≠ [] →
        (postToReddit env content accessToken (Media.arr items) acc sub).1
          = { success := false, postId := none,
              error := some ("Reddit API error: " ++ stringifyErrors resp.errors) }) ∧
      (resp.errors = [] → jsTruthy resp.id = false →
        (postToReddit env content accessToken (Media.arr items) acc sub).1
          = { success := false, postId := none,
              error := some "Reddit post failed - no post ID returned" })) := by
  refine ⟨?_, ?_, ?_⟩
  · intro env content accessToken acc sub resp hsubmit hok
    unfold postToReddit redditBody redditTextBranch
    rw [show mediaPresent Media.mnull = false from rfl]
    simp only [Bool.false_eq_true, if_false, ite_false]
    rw [hsubmit]
    constructor
    · intro herr
      simp [hok, herr]
    · intro herr hid
      simp [hok, herr, hid]
  · intro env content accessToken acc sub m lr fr pr resp hl hlok hf hfok hp hpok hsubmit hok
    have hup : uploadImageToRedditAsset env 0 m.cloudinaryUrl
        = ([RedditCall.lease, RedditCall.fetchImage m.cloudinaryUrl,
            RedditCall.putUpload ("https:" ++ lr.action)],
           Except.ok { assetId := lr.asset_id, imageUrl := s3Base ++ lr.key.getD "undefined" }) := by
      unfold uploadImageToRedditAsset
      rw [hl, hf, hp]
      simp [hlok, hfok, hpok]
    unfold postToReddit redditBody redditSingleImageBranch
    rw [show mediaPresent (Media.arr [m]) = true from rfl]
    simp only [if_true, ite_true]
    rw [hup]
    simp only
    rw [hsubmit]
    constructor
    · intro herr
      simp [hok, herr]
    · intro herr hid husp
      simp [hok, herr, hid, husp]
  · intro env content accessToken acc sub items tr ids resp hlen hgal hsubmit hok
    obtain ⟨m1, rest1, rfl⟩ : ∃ m1 rest1, items = m1 :: rest1 := by
      cases items with
      | nil => simp at hlen
      | cons a t => exact ⟨a, t, rfl⟩
    obtain ⟨m2, rest2, rfl⟩ : ∃ m2 rest2, rest1 = m2 :: rest2 := by
      cases rest1 with
      | nil => simp at hlen
      | cons a t => exact ⟨a, t, rfl⟩
    unfold postToReddit redditBody redditGalleryBranch
    rw [show mediaPresent (Media.arr (m1 :: m2 :: rest2)) = true from rfl]
    simp only [if_true, ite_true]
    rw [hgal]
    simp only
    rw [hsubmit]
    constructor
    · intro herr
      simp [hok, herr]
    · intro herr hid
      simp [hok, herr, hid]

/-- Closed witness for the amended C7 theorem at concrete inputs. -/
theorem redditSubmitResponseChecked_witness :
    (postToReddit cRdEnvErrors "hello" "tok" Media.mnull none (some "test")).1
      = { success := false, postId := none,
          error := some ("Reddit API error: " ++ stringifyErrors ["e1"]) } ∧
    (postToReddit cRdEnvUpErrors "hello" "tok" (Media.arr [MediaItem.mk "u1" ""]) none
        (some "test")).1
      = { success := false, postId := none,
          error := some ("Reddit API error: " ++ stringifyErrors ["e1"]) } ∧
    (postToReddit cRdEnvUpErrors "hello" "tok"
        (Media.arr [MediaItem.mk "u1" "", MediaItem.mk "u2" ""]) none (some "test")).1
      = { success := false, postId := none,
          error := some ("Reddit API error: " ++ stringifyErrors ["e1"]) } := by
  refine ⟨?_, ?_, ?_⟩
  · have h := (redditSubmitResponseChecked.1 cRdEnvErrors "hello" "tok" none (some "test")
      cSubmitRespErrors rfl rfl).1 (by decide)
    exact h
  · have h := (redditSubmitResponseChecked.2.1 cRdEnvUpErrors "hello" "tok" none (some "test")
      (MediaItem.mk "u1" "")
      { ok := true, status := 200, action := "//act", asset_id := "as", key := some "k" }
      { ok := true, status := 200, errText := "" }
      { ok := true, status := 200, errText := "" }
      cSubmitRespErrors rfl rfl rfl rfl rfl rfl rfl rfl).1 (by decide)
    exact h
  · have h := (redditSubmitResponseChecked.2.2 cRdEnvUpErrors "hello" "tok" none (some "test")
      [MediaItem.mk "u1" "", MediaItem.mk "u2" ""]
      [RedditCall.lease, RedditCall.fetchImage "u1", RedditCall.putUpload "https://act",
       RedditCall.lease, RedditCall.fetchImage "u2", RedditCall.putUpload "https://act"]
      ["as", "as"] cSubmitRespErrors (by decide) rfl rfl rfl).1 (by decide)
    exact h

end SocialX
